import Mathlib

/-!
Verification development for the clinical knowledge-graph core:
the taxonomy tables and code resolver (`backend/etl/body_systems.py`),
the FHIR-bundle ingestion pipeline (`backend/etl/fhir_to_neo4j.py`),
and the patient aggregation query (`backend/services/patient_service.py`).

Python dictionaries with string keys are embedded as association lists,
Python string slicing and truthiness are embedded explicitly, and the
Cypher statements issued by the loader are embedded as pure updates on an
explicit graph-state record (MERGE on a node key is create-if-absent,
SET overwrites attributes, MERGE on a relationship pattern matches the
whole pattern including its property map, ON CREATE SET fires only at
node creation, and a MATCH that finds nothing makes the statement write
nothing).
-/

set_option maxHeartbeats 1000000

/-! ### Generic helpers: Python dict/string primitives -/

/-- `dictGet m k` embeds Python `m.get(k)` / `m[k]` for a dict literal,
represented as an association list (keys are distinct in our tables). -/
def dictGet {α : Type} (m : List (String × α)) (k : String) : Option α :=
  match m with
  | [] => none
  | (k', v) :: rest => if k = k' then some v else dictGet rest k

/-- `pyTake n s` embeds the Python slice `s[:n]` (first `n` characters). -/
def pyTake (n : Nat) (s : String) : String :=
  String.mk (s.data.take n)

/-- `lastSeg r` embeds Python `r.split("/")[-1]`: the characters after the
last `/` (the whole string when there is no `/`). -/
def lastSeg (r : String) : String :=
  String.mk (r.data.foldl (fun acc ch => if ch = '/' then [] else acc ++ [ch]) [])

/-- Python `a or b` for an optional string `a` (None and `""` are falsy). -/
def pyOrS (a : Option String) (b : String) : String :=
  match a with
  | none => b
  | some x => if x = "" then b else x

/-- Python truthiness of an optional string (None and `""` are falsy). -/
def truthyS : Option String → Bool
  | none => false
  | some x => !(x == "")

/-- `pyStrip s` embeds Python `s.strip()`: remove leading and trailing
whitespace characters. -/
def pyStrip (s : String) : String :=
  String.mk
    (((s.data.dropWhile Char.isWhitespace).reverse.dropWhile
        Char.isWhitespace).reverse)

/-- Structural decidable equality for `Except` results. -/
instance {ε α : Type} [DecidableEq ε] [DecidableEq α] :
    DecidableEq (Except ε α) := fun x y =>
  match x, y with
  | .error a, .error b =>
    if h : a = b then isTrue (by rw [h])
    else isFalse (by intro hc; cases hc; exact h rfl)
  | .error _, .ok _ => isFalse (by intro hc; cases hc)
  | .ok _, .error _ => isFalse (by intro hc; cases hc)
  | .ok a, .ok b =>
    if h : a = b then isTrue (by rw [h])
    else isFalse (by intro hc; cases hc; exact h rfl)

/-! ### Taxonomy Tables (`backend/etl/body_systems.py`) -/

/-- A value of the condition table: `{system, subsystem, description}`. -/
structure BodySystemEntry where
  system : String
  subsystem : String
  description : String
deriving DecidableEq

/-- A value of the medication table: `{target, action}`. -/
structure TargetEntry where
  target : String
  action : String
deriving DecidableEq

/-- `CONDITION_TO_BODY_SYSTEM`: ICD-10 condition code → body system. -/
def CONDITION_TO_BODY_SYSTEM : List (String × BodySystemEntry) := [
  ("I10", ⟨"Heart", "Blood Vessels", "Pumps blood throughout your body"⟩),
  ("I11", ⟨"Heart", "Muscle", "Pumps blood throughout your body"⟩),
  ("I13", ⟨"Heart", "Muscle", "Pumps blood throughout your body"⟩),
  ("I20", ⟨"Heart", "Coronary Arteries", "Pumps blood throughout your body"⟩),
  ("I21", ⟨"Heart", "Coronary Arteries", "Pumps blood throughout your body"⟩),
  ("I25", ⟨"Heart", "Coronary Arteries", "Pumps blood throughout your body"⟩),
  ("I48", ⟨"Heart", "Electrical System", "Pumps blood throughout your body"⟩),
  ("I50", ⟨"Heart", "Muscle", "Pumps blood throughout your body"⟩),
  ("I63", ⟨"Brain", "Blood Vessels", "Controls all body functions"⟩),
  ("I70", ⟨"Blood Vessels", "Arteries", "Carry blood throughout the body"⟩),
  ("E10", ⟨"Pancreas", "Insulin Production", "Produces insulin to control blood sugar"⟩),
  ("E11", ⟨"Pancreas", "Insulin Production", "Produces insulin to control blood sugar"⟩),
  ("E13", ⟨"Pancreas", "Insulin Production", "Produces insulin to control blood sugar"⟩),
  ("E66", ⟨"Metabolism", "Energy Balance", "Converts food into energy"⟩),
  ("E78", ⟨"Liver", "Cholesterol Processing", "Processes fats and removes toxins"⟩),
  ("E03", ⟨"Thyroid", "Hormone Production", "Regulates metabolism"⟩),
  ("E05", ⟨"Thyroid", "Hormone Production", "Regulates metabolism"⟩),
  ("J44", ⟨"Lungs", "Airways", "Brings oxygen into your body"⟩),
  ("J45", ⟨"Lungs", "Airways", "Brings oxygen into your body"⟩),
  ("J18", ⟨"Lungs", "Air Sacs", "Brings oxygen into your body"⟩),
  ("J06", ⟨"Lungs", "Upper Airways", "Brings oxygen into your body"⟩),
  ("G20", ⟨"Brain", "Motor Control", "Controls all body functions"⟩),
  ("G30", ⟨"Brain", "Memory", "Controls all body functions"⟩),
  ("G40", ⟨"Brain", "Electrical Activity", "Controls all body functions"⟩),
  ("G43", ⟨"Brain", "Blood Vessels", "Controls all body functions"⟩),
  ("G47", ⟨"Brain", "Sleep Centers", "Controls all body functions"⟩),
  ("M54", ⟨"Spine", "Vertebrae", "Supports your body and protects nerves"⟩),
  ("M17", ⟨"Joints", "Knees", "Allow movement"⟩),
  ("M16", ⟨"Joints", "Hips", "Allow movement"⟩),
  ("M79", ⟨"Muscles", "Soft Tissue", "Enable movement"⟩),
  ("M81", ⟨"Bones", "Density", "Support and protect your body"⟩),
  ("F32", ⟨"Brain", "Mood Centers", "Controls all body functions"⟩),
  ("F33", ⟨"Brain", "Mood Centers", "Controls all body functions"⟩),
  ("F41", ⟨"Brain", "Stress Response", "Controls all body functions"⟩),
  ("F17", ⟨"Brain", "Reward Centers", "Controls all body functions"⟩),
  ("K21", ⟨"Stomach", "Acid Production", "Digests food"⟩),
  ("K50", ⟨"Intestines", "Large Intestine", "Absorbs nutrients"⟩),
  ("K51", ⟨"Intestines", "Large Intestine", "Absorbs nutrients"⟩),
  ("K70", ⟨"Liver", "Cells", "Processes nutrients and removes toxins"⟩),
  ("K76", ⟨"Liver", "Cells", "Processes nutrients and removes toxins"⟩),
  ("N18", ⟨"Kidneys", "Filtering", "Filter waste from your blood"⟩),
  ("N17", ⟨"Kidneys", "Filtering", "Filter waste from your blood"⟩),
  ("N40", ⟨"Prostate", "Gland", "Part of the urinary system"⟩),
  ("H36", ⟨"Eyes", "Blood Vessels", "Enable vision"⟩),
  ("H35", ⟨"Eyes", "Retina", "Enable vision"⟩),
  ("H40", ⟨"Eyes", "Pressure", "Enable vision"⟩),
  ("H25", ⟨"Eyes", "Lens", "Enable vision"⟩),
  ("C34", ⟨"Lungs", "Tissue", "Brings oxygen into your body"⟩),
  ("C50", ⟨"Breast", "Tissue", "Mammary glands"⟩),
  ("C61", ⟨"Prostate", "Gland", "Part of the reproductive system"⟩),
  ("C18", ⟨"Intestines", "Large Intestine", "Absorbs nutrients"⟩)]

/-- `MEDICATION_TO_TARGET`: medication code → target body system. -/
def MEDICATION_TO_TARGET : List (String × TargetEntry) := [
  ("B01AA03", ⟨"Blood", "Prevents clotting"⟩),
  ("B01AF01", ⟨"Blood", "Prevents clotting"⟩),
  ("B01AF02", ⟨"Blood", "Prevents clotting"⟩),
  ("B01AC06", ⟨"Blood", "Prevents clotting"⟩),
  ("A10BA02", ⟨"Liver", "Reduces glucose production"⟩),
  ("A10AB01", ⟨"Body Cells", "Enables glucose uptake"⟩),
  ("A10AE04", ⟨"Body Cells", "Enables glucose uptake"⟩),
  ("A10BK01", ⟨"Kidneys", "Removes excess glucose"⟩),
  ("A10BJ02", ⟨"Pancreas", "Stimulates insulin release"⟩),
  ("C07AB02", ⟨"Heart", "Slows heart rate"⟩),
  ("C07AB03", ⟨"Heart", "Slows heart rate"⟩),
  ("C09AA02", ⟨"Blood Vessels", "Relaxes vessels"⟩),
  ("C09AA03", ⟨"Blood Vessels", "Relaxes vessels"⟩),
  ("C09CA01", ⟨"Blood Vessels", "Relaxes vessels"⟩),
  ("C03CA01", ⟨"Kidneys", "Removes excess fluid"⟩),
  ("C03AA03", ⟨"Kidneys", "Removes excess fluid"⟩),
  ("C08CA01", ⟨"Blood Vessels", "Relaxes vessels"⟩),
  ("C01BD01", ⟨"Heart", "Regulates rhythm"⟩),
  ("C10AA01", ⟨"Liver", "Reduces cholesterol production"⟩),
  ("C10AA05", ⟨"Liver", "Reduces cholesterol production"⟩),
  ("C10AA07", ⟨"Liver", "Reduces cholesterol production"⟩),
  ("R03AC02", ⟨"Lungs", "Opens airways"⟩),
  ("R03AK06", ⟨"Lungs", "Opens airways, reduces inflammation"⟩),
  ("R03BB04", ⟨"Lungs", "Opens airways"⟩),
  ("N02BE01", ⟨"Brain", "Reduces pain signals"⟩),
  ("M01AE01", ⟨"Body", "Reduces inflammation"⟩),
  ("N02AX02", ⟨"Brain", "Reduces pain signals"⟩),
  ("N06AB06", ⟨"Brain", "Balances mood chemicals"⟩),
  ("N06AB04", ⟨"Brain", "Balances mood chemicals"⟩),
  ("N06AB10", ⟨"Brain", "Balances mood chemicals"⟩),
  ("N05AH04", ⟨"Brain", "Balances brain chemicals"⟩),
  ("H03AA01", ⟨"Thyroid", "Replaces thyroid hormone"⟩),
  ("A02BC01", ⟨"Stomach", "Reduces acid production"⟩),
  ("A02BC02", ⟨"Stomach", "Reduces acid production"⟩)]

/-- The sentinel classification returned when no condition entry matches. -/
def conditionSentinel : BodySystemEntry :=
  ⟨"Body", "Unknown", "Part of your body"⟩

/-- `get_body_system_for_condition` (body_systems.py): exact match first,
then the 3-character category when the code has length ≥ 3, else sentinel. -/
def get_body_system_for_condition (icd_code : String) : BodySystemEntry :=
  match dictGet CONDITION_TO_BODY_SYSTEM icd_code with
  | some v => v
  | none =>
    let pfx := if 3 ≤ icd_code.length then pyTake 3 icd_code else icd_code
    match dictGet CONDITION_TO_BODY_SYSTEM pfx with
    | some v => v
    | none => conditionSentinel

/-- `get_target_for_medication` (body_systems.py): exact match, else sentinel. -/
def get_target_for_medication (med_code : String) : TargetEntry :=
  match dictGet MEDICATION_TO_TARGET med_code with
  | some v => v
  | none => ⟨"Body", "Helps with treatment"⟩

/-- The inline condition lookup performed by `_create_condition`
(fhir_to_neo4j.py lines 180-182): 3-character category first, exact second. -/
def conditionBodySystemLookup (code : String) : Option BodySystemEntry :=
  match dictGet CONDITION_TO_BODY_SYSTEM (pyTake 3 code) with
  | some v => some v
  | none => dictGet CONDITION_TO_BODY_SYSTEM code

/-! ### FHIR resource model (the fields read by `fhir_to_neo4j.py`) -/

/-- One entry of a FHIR coding list: `{code, display, system}`. -/
structure FCoding where
  code : String
  display : Option String
  system : Option String
deriving DecidableEq

/-- One entry of `Patient.name`: given names and family name. -/
structure FHumanName where
  given : List String
  family : Option String
deriving DecidableEq

/-- The fields of a FHIR `Patient` resource read by `_create_patient`. -/
structure FPatient where
  id : String
  name : List FHumanName
  birthDate : Option String
  gender : Option String
deriving DecidableEq

/-- The fields of a FHIR `Condition` resource read by `_create_condition`.
`coding` is `condition.code.coding` (a missing `code` element or a missing
coding list is the empty list — both are Python-falsy and skipped alike);
`subject` is `condition.subject.reference` (absent subject or absent
reference collapse to `none`); `onset` is `str(condition.onsetDateTime)`. -/
structure FCondition where
  coding : List FCoding
  subject : Option String
  onset : Option String
deriving DecidableEq

/-- The fields of a FHIR `MedicationRequest` resource read by
`_create_medication`: `medicationCodeableConcept.coding` (missing concept
or coding list is the empty list) and `subject.reference`. -/
structure FMedicationRequest where
  coding : List FCoding
  subject : Option String
deriving DecidableEq

/-- A bundle entry's resource, dispatched on `resource_type`; `other`
covers entries without a resource and resource types the loader ignores. -/
inductive FResource where
  | pat (p : FPatient)
  | cond (c : FCondition)
  | med (m : FMedicationRequest)
  | other
deriving DecidableEq

/-! ### Graph store state -/

/-- Attributes of a `Patient` node (`SET p.name, p.birthDate, p.gender`). -/
structure PatientAttrs where
  name : String
  birthDate : Option String
  gender : Option String
deriving DecidableEq

/-- Attributes of a `Condition` node (`SET c.display, c.system`). -/
structure ConditionAttrs where
  display : String
  system : Option String
deriving DecidableEq

/-- Attributes of a `Medication` node (`SET m.display, m.system`). -/
structure MedicationAttrs where
  display : String
  system : Option String
deriving DecidableEq

/-- The state of the Neo4j graph as manipulated by the loader and read by
the query service.  Node sets are id lists (in creation order) paired with
attribute maps; relationship sets are lists of identity tuples, where the
tuple carries exactly the properties that appear inside the corresponding
Cypher `MERGE` relationship pattern (so pattern-matching MERGE semantics
is list insertion-if-absent on the tuple).  `treats` and `relatedTo` are
never written by the loader but are read by the query service. -/
@[ext]
structure GraphState where
  patientIds : List String
  patientAttrs : String → PatientAttrs
  conditionIds : List String
  conditionAttrs : String → ConditionAttrs
  medicationIds : List String
  medicationAttrs : String → MedicationAttrs
  bsNames : List String
  bsDesc : String → Option String
  hasCondition : List (String × String × Option String)
  takesMedication : List (String × String)
  affects : List (String × String × String)
  targets : List (String × String × String)
  treats : List (String × String)
  relatedTo : List (String × String)

/-- The empty graph store. -/
def emptyStore : GraphState where
  patientIds := []
  patientAttrs := fun _ => ⟨"", none, none⟩
  conditionIds := []
  conditionAttrs := fun _ => ⟨"", none⟩
  medicationIds := []
  medicationAttrs := fun _ => ⟨"", none⟩
  bsNames := []
  bsDesc := fun _ => none
  hasCondition := []
  takesMedication := []
  affects := []
  targets := []
  treats := []
  relatedTo := []

/-- Insert-if-absent: the effect of `MERGE` on a node key or on a full
relationship pattern. -/
def insAbs {α : Type} [DecidableEq α] (l : List α) (a : α) : List α :=
  if a ∈ l then l else l ++ [a]

/-! ### The loader (`fhir_to_neo4j.py`, class FHIRToNeo4jLoader) -/

/-- Display-name extraction in `_create_patient`: first given name plus
family name, stripped; `"Unknown"` when no name entry is present. -/
def mkPatientName (names : List FHumanName) : String :=
  match names with
  | [] => "Unknown"
  | n :: _ => pyStrip ((n.given.headD "") ++ " " ++ (n.family.getD ""))

/-- `_create_patient`: `MERGE (p:Patient {id: $id}) SET p.name, p.birthDate,
p.gender`. -/
def createPatient (s : GraphState) (p : FPatient) : GraphState :=
  { s with
    patientIds := insAbs s.patientIds p.id
    patientAttrs := fun x =>
      if x = p.id then ⟨mkPatientName p.name, p.birthDate, p.gender⟩
      else s.patientAttrs x }

/-- Patient-reference extraction: `subject.reference.split("/")[-1]`,
yielding `none` when the subject/reference is missing or falsy or the
final segment is empty (`if not patient_ref: return`). -/
def subjectRef (subject : Option String) : Option String :=
  match subject with
  | none => none
  | some r =>
    if r = "" then none
    else
      let pid := lastSeg r
      if pid = "" then none else some pid

/-- The first Cypher statement of `_create_condition`:
`MATCH (p:Patient {id}) MERGE (c:Condition {code}) SET c.display, c.system
MERGE (p)-[:HAS_CONDITION {onsetDate: $onset}]->(c)`.
A failing `MATCH` writes nothing; the relationship pattern carries its
`onsetDate` property, so the merged edge identity includes the onset. -/
def condMergeQuery (s : GraphState) (pid : String) (coding : FCoding)
    (onset : Option String) : GraphState :=
  if pid ∈ s.patientIds then
    { s with
      conditionIds := insAbs s.conditionIds coding.code
      conditionAttrs := fun x =>
        if x = coding.code then ⟨pyOrS coding.display coding.code, coding.system⟩
        else s.conditionAttrs x
      hasCondition := insAbs s.hasCondition (pid, coding.code, onset) }
  else s

/-- `_link_condition_to_body_system`:
`MATCH (c:Condition {code}) MERGE (bs:BodySystem {name})
ON CREATE SET bs.description MERGE (c)-[:AFFECTS {subsystem}]->(bs)`. -/
def linkConditionToBodySystem (s : GraphState) (code : String)
    (bs : BodySystemEntry) : GraphState :=
  if code ∈ s.conditionIds then
    { s with
      bsNames := insAbs s.bsNames bs.system
      bsDesc :=
        if bs.system ∈ s.bsNames then s.bsDesc
        else fun x => if x = bs.system then some bs.description else s.bsDesc x
      affects := insAbs s.affects (code, bs.system, bs.subsystem) }
  else s

/-- `_create_condition`: skip when the coding list is empty or the patient
reference does not resolve; otherwise run the merge query and, when the
inline table lookup finds a body system, the link query. -/
def createCondition (s : GraphState) (c : FCondition) : GraphState :=
  match c.coding with
  | [] => s
  | coding :: _ =>
    match subjectRef c.subject with
    | none => s
    | some pid =>
      let s1 := condMergeQuery s pid coding c.onset
      match conditionBodySystemLookup coding.code with
      | none => s1
      | some bs => linkConditionToBodySystem s1 coding.code bs

/-- The first Cypher statement of `_create_medication`:
`MATCH (p:Patient {id}) MERGE (m:Medication {code}) SET m.display, m.system
MERGE (p)-[:TAKES_MEDICATION]->(m)` (no properties on the edge pattern). -/
def medMergeQuery (s : GraphState) (pid : String) (coding : FCoding) :
    GraphState :=
  if pid ∈ s.patientIds then
    { s with
      medicationIds := insAbs s.medicationIds coding.code
      medicationAttrs := fun x =>
        if x = coding.code then ⟨pyOrS coding.display coding.code, coding.system⟩
        else s.medicationAttrs x
      takesMedication := insAbs s.takesMedication (pid, coding.code) }
  else s

/-- `_link_medication_to_target`: `MATCH (m:Medication {code})
MERGE (bs:BodySystem {name}) MERGE (m)-[:TARGETS {action}]->(bs)`
(no `ON CREATE SET`, so a node created here has no description). -/
def linkMedicationToTarget (s : GraphState) (code : String)
    (t : TargetEntry) : GraphState :=
  if code ∈ s.medicationIds then
    { s with
      bsNames := insAbs s.bsNames t.target
      targets := insAbs s.targets (code, t.target, t.action) }
  else s

/-- `_create_medication`: skip when the coding list is empty or the patient
reference does not resolve; otherwise merge and, when `MEDICATION_TO_TARGET`
has the code, link to the target body system. -/
def createMedication (s : GraphState) (m : FMedicationRequest) : GraphState :=
  match m.coding with
  | [] => s
  | coding :: _ =>
    match subjectRef m.subject with
    | none => s
    | some pid =>
      let s1 := medMergeQuery s pid coding
      match dictGet MEDICATION_TO_TARGET coding.code with
      | none => s1
      | some t => linkMedicationToTarget s1 coding.code t

/-- The per-entry state transition of `load_bundle`'s dispatch loop. -/
def stepResource (s : GraphState) (r : FResource) : GraphState :=
  match r with
  | .pat p => createPatient s p
  | .cond c => createCondition s c
  | .med m => createMedication s m
  | .other => s

/-- The counters returned by `load_bundle` (`body_systems` is initialized
to 0 and never incremented in the source). -/
structure LoadStats where
  patients : Nat
  conditions : Nat
  medications : Nat
  body_systems : Nat
deriving DecidableEq

/-- The per-entry counter bump of `load_bundle`: each dispatched resource
increments its counter whether or not the create helper skipped it. -/
def bumpStats (st : LoadStats) (r : FResource) : LoadStats :=
  match r with
  | .pat _ => { st with patients := st.patients + 1 }
  | .cond _ => { st with conditions := st.conditions + 1 }
  | .med _ => { st with medications := st.medications + 1 }
  | .other => st

/-- `load_bundle`: fold the dispatch loop over the bundle entries,
returning the counters and the resulting graph state. -/
def loadBundle (s : GraphState) (entries : List FResource) :
    LoadStats × GraphState :=
  entries.foldl (fun acc r => (bumpStats acc.1 r, stepResource acc.2 r))
    (⟨0, 0, 0, 0⟩, s)

/-- The graph state after `load_bundle`. -/
def loadState (s : GraphState) (entries : List FResource) : GraphState :=
  entries.foldl stepResource s

/-- The counters returned by `load_directory`. -/
structure DirStats where
  patients : Nat
  conditions : Nat
  medications : Nat
  files_processed : Nat
deriving DecidableEq

/-- `load_directory`: each `.json` file either fails to parse/validate
(`Except.error`, caught and only printed) or yields a bundle that is
loaded; successful files add their counts and increment
`files_processed`.  Failures leave no trace in the returned stats. -/
def loadDirectory (s : GraphState)
    (files : List (Except String (List FResource))) : DirStats × GraphState :=
  files.foldl
    (fun acc f =>
      match f with
      | .error _ => acc
      | .ok b =>
        let r := loadBundle acc.2 b
        (⟨acc.1.patients + r.1.patients, acc.1.conditions + r.1.conditions,
          acc.1.medications + r.1.medications, acc.1.files_processed + 1⟩,
         r.2))
    (⟨0, 0, 0, 0⟩, s)

/-! ### Query service (`backend/services/patient_service.py`) -/

/-- A row of the `conditions` aggregate:
`{code: c.code, display: c.display, onset: hc.onsetDate}`. -/
structure CondRow where
  code : Option String
  display : Option String
  onset : Option String
deriving DecidableEq

/-- A row of the `medications` aggregate:
`{code: m.code, display: m.display, treats: tc.display}`. -/
structure MedRow where
  code : Option String
  display : Option String
  treatsDisplay : Option String
deriving DecidableEq

/-- A row of the `body_systems` aggregate:
`{system: bs.name, description: bs.description}`. -/
structure BsRow where
  system : Option String
  description : Option String
deriving DecidableEq

/-- A row of the `relationships` aggregate:
`{condition: c.display, related_to: rc.display}`. -/
structure RelRow where
  condition : Option String
  related_to : Option String
deriving DecidableEq

/-- `PatientHealthSummary` (patient_service.py). -/
structure PatientHealthSummary where
  patient_id : String
  patient_name : String
  conditions : List CondRow
  medications : List MedRow
  body_systems_affected : List BsRow
  condition_relationships : List RelRow
deriving DecidableEq

/-- `collect(DISTINCT ...)`: keep the first occurrence of each row. -/
def dedupAux {α : Type} [DecidableEq α] (seen : List α) : List α → List α
  | [] => []
  | a :: rest =>
    if a ∈ seen then dedupAux seen rest else a :: dedupAux (a :: seen) rest

/-- Duplicate suppression for collected rows. -/
def collectDistinct {α : Type} [DecidableEq α] (l : List α) : List α :=
  dedupAux [] l

/-- The `conditions` rows produced by the optional-traversal fan-out for
one patient: one row per `HAS_CONDITION` edge, or a single all-null row
when the branch matches nothing. -/
def rawCondRows (s : GraphState) (pid : String) : List CondRow :=
  let m := s.hasCondition.filter (fun e => e.1 = pid)
  if m.isEmpty then [⟨none, none, none⟩]
  else m.map (fun e => ⟨some e.2.1, some (s.conditionAttrs e.2.1).display, e.2.2⟩)

/-- The `medications` rows: per `TAKES_MEDICATION` edge, fanned out over
the medication's `TREATS` edges (null `treats` when there are none). -/
def rawMedRows (s : GraphState) (pid : String) : List MedRow :=
  let m := s.takesMedication.filter (fun e => e.1 = pid)
  if m.isEmpty then [⟨none, none, none⟩]
  else
    m.flatMap (fun e =>
      let d := some (s.medicationAttrs e.2).display
      let ts := s.treats.filter (fun t => t.1 = e.2)
      if ts.isEmpty then [⟨some e.2, d, none⟩]
      else ts.map (fun t => ⟨some e.2, d, some (s.conditionAttrs t.2).display⟩))

/-- The `body_systems` rows: per matched condition, fanned out over its
`AFFECTS` edges (an all-null row when a branch matches nothing). -/
def rawBsRows (s : GraphState) (pid : String) : List BsRow :=
  let m := s.hasCondition.filter (fun e => e.1 = pid)
  if m.isEmpty then [⟨none, none⟩]
  else
    m.flatMap (fun e =>
      let as := s.affects.filter (fun a => a.1 = e.2.1)
      if as.isEmpty then [⟨none, none⟩]
      else as.map (fun a => ⟨some a.2.1, s.bsDesc a.2.1⟩))

/-- The `relationships` rows: per matched condition, fanned out over its
`RELATED_TO` edges (`related_to` is null when there are none). -/
def rawRelRows (s : GraphState) (pid : String) : List RelRow :=
  let m := s.hasCondition.filter (fun e => e.1 = pid)
  if m.isEmpty then [⟨none, none⟩]
  else
    m.flatMap (fun e =>
      let d := some (s.conditionAttrs e.2.1).display
      let rs := s.relatedTo.filter (fun r => r.1 = e.2.1)
      if rs.isEmpty then [⟨d, none⟩]
      else rs.map (fun r => ⟨d, some (s.conditionAttrs r.2).display⟩))

/-- `get_patient_health_summary`: raise `ValueError(f"Patient {id} not
found")` when the single-row query returns no record (`not result`) or a
falsy `patient_name`; otherwise filter each collected list on its primary
field's truthiness and return the summary. -/
def getPatientHealthSummary (s : GraphState) (patient_id : String) :
    Except String PatientHealthSummary :=
  if patient_id ∈ s.patientIds then
    if (s.patientAttrs patient_id).name = "" then
      Except.error ("Patient " ++ patient_id ++ " not found")
    else
      Except.ok
        { patient_id := patient_id
          patient_name := (s.patientAttrs patient_id).name
          conditions :=
            (collectDistinct (rawCondRows s patient_id)).filter
              (fun r => truthyS r.code)
          medications :=
            (collectDistinct (rawMedRows s patient_id)).filter
              (fun r => truthyS r.code)
          body_systems_affected :=
            (collectDistinct (rawBsRows s patient_id)).filter
              (fun r => truthyS r.system)
          condition_relationships :=
            (collectDistinct (rawRelRows s patient_id)).filter
              (fun r => truthyS r.related_to) }
  else Except.error ("Patient " ++ patient_id ++ " not found")

/-! ### Primitive-write decomposition of the loader

Used to prove idempotence: when every condition/medication entry finds its
patient, an ingestion run is the fold of a state-independent list of
primitive writes. -/

/-- A primitive graph write: a node upsert (MERGE + SET), a body-system
touch (MERGE with optional ON CREATE SET description), or a relationship
insert (pattern MERGE). -/
inductive GraphWrite where
  | wPat (id : String) (a : PatientAttrs)
  | wCond (code : String) (a : ConditionAttrs)
  | wMed (code : String) (a : MedicationAttrs)
  | wBs (name : String) (d : Option String)
  | wHc (e : String × String × Option String)
  | wTm (e : String × String)
  | wAf (e : String × String × String)
  | wTg (e : String × String × String)
deriving DecidableEq

/-- Fold of insert-if-absent over a list of inserted elements. -/
def foldIns {α : Type} [DecidableEq α] (l : List α) (ws : List α) : List α :=
  ws.foldl insAbs l

/-- Fold of function update over a list of key/value writes. -/
def applyUpd {V : Type} (f : String → V) (ws : List (String × V)) :
    String → V :=
  ws.foldl (fun g p x => if x = p.1 then p.2 else g x) f

/-- The last value written to key `x` by a list of key/value writes. -/
def lastVal {V : Type} (ws : List (String × V)) (x : String) : Option V :=
  match ws with
  | [] => none
  | (k, v) :: rest =>
    match lastVal rest x with
    | some u => some u
    | none => if x = k then some v else none

/-- One body-system touch on the (names, descriptions) pair: create the
node if absent, setting the description only when the directive carries
one; an existing node is left untouched. -/
def touchBs (p : List String × (String → Option String))
    (w : String × Option String) : List String × (String → Option String) :=
  if w.1 ∈ p.1 then p
  else
    (p.1 ++ [w.1],
     match w.2 with
     | some d => fun x => if x = w.1 then some d else p.2 x
     | none => p.2)

/-- Fold of body-system touches. -/
def applyTouch (p : List String × (String → Option String))
    (ws : List (String × Option String)) :
    List String × (String → Option String) :=
  ws.foldl touchBs p

/-- Projection of a write list to inserted patient ids. -/
def wPatIds : List GraphWrite → List String :=
  List.filterMap fun w => match w with | .wPat id _ => some id | _ => none

/-- Projection of a write list to patient attribute writes. -/
def wPatAttrs : List GraphWrite → List (String × PatientAttrs) :=
  List.filterMap fun w => match w with | .wPat id a => some (id, a) | _ => none

/-- Projection of a write list to inserted condition codes. -/
def wCondIds : List GraphWrite → List String :=
  List.filterMap fun w => match w with | .wCond c _ => some c | _ => none

/-- Projection of a write list to condition attribute writes. -/
def wCondAttrs : List GraphWrite → List (String × ConditionAttrs) :=
  List.filterMap fun w => match w with | .wCond c a => some (c, a) | _ => none

/-- Projection of a write list to inserted medication codes. -/
def wMedIds : List GraphWrite → List String :=
  List.filterMap fun w => match w with | .wMed c _ => some c | _ => none

/-- Projection of a write list to medication attribute writes. -/
def wMedAttrs : List GraphWrite → List (String × MedicationAttrs) :=
  List.filterMap fun w => match w with | .wMed c a => some (c, a) | _ => none

/-- Projection of a write list to body-system touches. -/
def wBsTouches : List GraphWrite → List (String × Option String) :=
  List.filterMap fun w => match w with | .wBs n d => some (n, d) | _ => none

/-- Projection of a write list to HAS_CONDITION inserts. -/
def wHcEdges : List GraphWrite → List (String × String × Option String) :=
  List.filterMap fun w => match w with | .wHc e => some e | _ => none

/-- Projection of a write list to TAKES_MEDICATION inserts. -/
def wTmEdges : List GraphWrite → List (String × String) :=
  List.filterMap fun w => match w with | .wTm e => some e | _ => none

/-- Projection of a write list to AFFECTS inserts. -/
def wAfEdges : List GraphWrite → List (String × String × String) :=
  List.filterMap fun w => match w with | .wAf e => some e | _ => none

/-- Projection of a write list to TARGETS inserts. -/
def wTgEdges : List GraphWrite → List (String × String × String) :=
  List.filterMap fun w => match w with | .wTg e => some e | _ => none

/-- Apply a list of primitive writes to a graph state, componentwise. -/
def applyWrites (s : GraphState) (ws : List GraphWrite) : GraphState where
  patientIds := foldIns s.patientIds (wPatIds ws)
  patientAttrs := applyUpd s.patientAttrs (wPatAttrs ws)
  conditionIds := foldIns s.conditionIds (wCondIds ws)
  conditionAttrs := applyUpd s.conditionAttrs (wCondAttrs ws)
  medicationIds := foldIns s.medicationIds (wMedIds ws)
  medicationAttrs := applyUpd s.medicationAttrs (wMedAttrs ws)
  bsNames := (applyTouch (s.bsNames, s.bsDesc) (wBsTouches ws)).1
  bsDesc := (applyTouch (s.bsNames, s.bsDesc) (wBsTouches ws)).2
  hasCondition := foldIns s.hasCondition (wHcEdges ws)
  takesMedication := foldIns s.takesMedication (wTmEdges ws)
  affects := foldIns s.affects (wAfEdges ws)
  targets := foldIns s.targets (wTgEdges ws)
  treats := s.treats
  relatedTo := s.relatedTo

/-- The patient attributes written by `_create_patient`. -/
def patAttrsOf (p : FPatient) : PatientAttrs :=
  ⟨mkPatientName p.name, p.birthDate, p.gender⟩

/-- The primitive writes of one bundle entry, assuming its referenced
patient is present when it is processed. -/
def resourceWrites (r : FResource) : List GraphWrite :=
  match r with
  | .pat p => [.wPat p.id (patAttrsOf p)]
  | .cond c =>
    match c.coding with
    | [] => []
    | coding :: _ =>
      match subjectRef c.subject with
      | none => []
      | some pid =>
        [.wCond coding.code ⟨pyOrS coding.display coding.code, coding.system⟩,
         .wHc (pid, coding.code, c.onset)] ++
        (match conditionBodySystemLookup coding.code with
         | none => []
         | some bs =>
           [.wBs bs.system (some bs.description),
            .wAf (coding.code, bs.system, bs.subsystem)])
  | .med m =>
    match m.coding with
    | [] => []
    | coding :: _ =>
      match subjectRef m.subject with
      | none => []
      | some pid =>
        [.wMed coding.code ⟨pyOrS coding.display coding.code, coding.system⟩,
         .wTm (pid, coding.code)] ++
        (match dictGet MEDICATION_TO_TARGET coding.code with
         | none => []
         | some t => [.wBs t.target none, .wTg (coding.code, t.target, t.action)])
  | .other => []

/-- The primitive writes of a whole bundle. -/
def bundleWrites (entries : List FResource) : List GraphWrite :=
  entries.flatMap resourceWrites

/-- The local guards of a condition/medication entry: the first coding
entry together with the resolved patient reference, or `none` when the
entry is skipped. -/
def guardedRef (coding : List FCoding) (subject : Option String) :
    Option (FCoding × String) :=
  match coding with
  | [] => none
  | c :: _ =>
    match subjectRef subject with
    | none => none
    | some pid => some (c, pid)

/-- A condition/medication entry is in-order at state `s` when, if it
passes its local guards, its referenced patient node already exists. -/
def resourceOk (s : GraphState) (r : FResource) : Bool :=
  match r with
  | .cond c =>
    match guardedRef c.coding c.subject with
    | none => true
    | some (_, pid) => pid ∈ s.patientIds
  | .med m =>
    match guardedRef m.coding m.subject with
    | none => true
    | some (_, pid) => pid ∈ s.patientIds
  | _ => true

/-- A bundle is in-order from state `s` when every entry is in-order at
the state it is processed in: each condition/medication either fails its
local guards or refers to a patient ingested earlier (or pre-existing). -/
def bundleOk (s : GraphState) : List FResource → Bool
  | [] => true
  | r :: rest => resourceOk s r && bundleOk (stepResource s r) rest

/-! ### Invariants used for the edge claims -/

/-- Every AFFECTS edge is justified by the inline condition lookup and
every TARGETS edge by the medication table: no edge exists for a code
with no taxonomy match, and none carries a sentinel classification. -/
def LinkEdgesJustified (s : GraphState) : Prop :=
  (∀ e ∈ s.affects,
    ∃ a, conditionBodySystemLookup e.1 = some a ∧
      e.2.1 = a.system ∧ e.2.2 = a.subsystem) ∧
  (∀ e ∈ s.targets,
    ∃ t, dictGet MEDICATION_TO_TARGET e.1 = some t ∧
      e.2.1 = t.target ∧ e.2.2 = t.action)

/-- Link saturation: every stored condition (medication) whose code the
taxonomy resolves already has its body-system node and AFFECTS (TARGETS)
edge — true of every state the loader itself produces. -/
def LinksSaturated (s : GraphState) : Prop :=
  (∀ code a, code ∈ s.conditionIds →
    conditionBodySystemLookup code = some a →
    a.system ∈ s.bsNames ∧ (code, a.system, a.subsystem) ∈ s.affects) ∧
  (∀ code t, code ∈ s.medicationIds →
    dictGet MEDICATION_TO_TARGET code = some t →
    t.target ∈ s.bsNames ∧ (code, t.target, t.action) ∈ s.targets)

/-! ### Concrete sample data for witnesses and counterexamples -/

/-- A well-formed diabetes condition coding. -/
def codingE11 : FCoding :=
  ⟨"E11", some "Type 2 Diabetes", some "http://hl7.org/fhir/sid/icd-10"⟩

/-- A hypertension coding. -/
def codingI10 : FCoding :=
  ⟨"I10", some "Essential hypertension", some "http://hl7.org/fhir/sid/icd-10"⟩

/-- An ibuprofen coding (ATC `M01AE01`, whose table target is `Body`). -/
def codingIbu : FCoding := ⟨"M01AE01", some "Ibuprofen", none⟩

/-- Sample patient resource `patient-001`. -/
def patMaria : FPatient :=
  ⟨"patient-001", [⟨["Maria"], some "Garcia"⟩], some "1958-03-14", some "female"⟩

/-- A patient resource whose single name entry has no given/family parts,
so the derived display name is the empty string. -/
def patBlankName : FPatient := ⟨"patient-002", [⟨[], none⟩], none, none⟩

/-- A well-formed condition resource referencing `patient-001`. -/
def condE11 : FCondition :=
  ⟨[codingE11], some "Patient/patient-001", some "2015-06-20"⟩

/-- A condition resource with an empty coding list (malformed). -/
def condNoCoding : FCondition := ⟨[], some "Patient/patient-001", none⟩

/-- A hypertension condition with onset 2020. -/
def condI10v2020 : FCondition :=
  ⟨[codingI10], some "Patient/patient-001", some "2020-01-01"⟩

/-- The same (patient, condition) pair with a different onset. -/
def condI10v2021 : FCondition :=
  ⟨[codingI10], some "Patient/patient-001", some "2021-01-01"⟩

/-- An ibuprofen medication request referencing `patient-001`. -/
def medIbu : FMedicationRequest := ⟨[codingIbu], some "Patient/patient-001"⟩

/-- The counters a bundle produces, independent of the graph state. -/
def bundleStats (entries : List FResource) : LoadStats :=
  entries.foldl bumpStats ⟨0, 0, 0, 0⟩

/-- Whether a directory file parsed successfully. -/
def okFile : Except String (List FResource) → Bool
  | .ok _ => true
  | .error _ => false

/-- The graph state produced by a directory load: failed files are
skipped, each parsed bundle is loaded in order. -/
def dirStateFold (s : GraphState)
    (files : List (Except String (List FResource))) : GraphState :=
  files.foldl
    (fun st f => match f with | .ok b => (loadBundle st b).2 | .error _ => st) s

/-- The per-file counter contribution of a directory load. -/
def fileStats (f : Except String (List FResource)) : LoadStats :=
  match f with
  | .ok b => bundleStats b
  | .error _ => ⟨0, 0, 0, 0⟩

/-- A bundle with one well-formed condition and one condition missing its
coding list. -/
def mixedConditionBundle : List FResource :=
  [.pat patMaria, .cond condE11, .cond condNoCoding]

/-- A bundle whose condition entry precedes its patient entry. -/
def outOfOrderBundle : List FResource := [.cond condE11, .pat patMaria]

/-- The same content with the patient entry first. -/
def inOrderBundle : List FResource := [.pat patMaria, .cond condE11]

/-- A bundle ingesting ibuprofen for `patient-001`. -/
def ibuprofenBundle : List FResource := [.pat patMaria, .med medIbu]

/-! ### Facts about the tables and string primitives -/

theorem condition_keys_length_three :
    CONDITION_TO_BODY_SYSTEM.all (fun p => p.1.length == 3) = true := by decide

theorem condition_values_not_body :
    CONDITION_TO_BODY_SYSTEM.all (fun p => !(p.2.system == "Body")) = true := by
  decide

theorem dictGet_mem {α : Type} {m : List (String × α)} {k : String} {v : α}
    (h : dictGet m k = some v) : (k, v) ∈ m := by
  induction m with
  | nil => simp [dictGet] at h
  | cons p rest ih =>
    obtain ⟨k', v'⟩ := p
    by_cases hk : k = k'
    · subst hk
      simp [dictGet] at h
      simp [h]
    · simp only [dictGet] at h
      rw [if_neg hk] at h
      exact List.mem_cons_of_mem _ (ih h)

theorem condition_key_length {k : String} {v : BodySystemEntry}
    (h : dictGet CONDITION_TO_BODY_SYSTEM k = some v) : k.length = 3 := by
  have hm := dictGet_mem h
  have hall := condition_keys_length_three
  rw [List.all_eq_true] at hall
  have := hall _ hm
  simpa using this

theorem pyTake_of_length_le {s : String} {n : Nat} (h : s.length ≤ n) :
    pyTake n s = s := by
  obtain ⟨data⟩ := s
  simp only [pyTake]
  rw [List.take_of_length_le]
  exact h

theorem condition_lookup_system_ne_body {k : String} {v : BodySystemEntry}
    (h : dictGet CONDITION_TO_BODY_SYSTEM k = some v) : v.system ≠ "Body" := by
  have hm := dictGet_mem h
  have hall := condition_values_not_body
  rw [List.all_eq_true] at hall
  have := hall _ hm
  simpa using this

/-! ### Claim C5: resolver priority order and totality -/

/-- C5: for every string input, `get_body_system_for_condition` returns
exactly what the claimed priority order dictates — the table entry for
the full code if present; otherwise, when the code has length ≥ 3, the
entry for its first three characters if present; otherwise the fixed
sentinel `{system: Body, subsystem: Unknown, description: Part of your
body}` — and, being a total Lean function into `BodySystemEntry`, it
never fails on any string, including the empty string and strings
shorter than three characters. -/
theorem resolver_priority_order (s : String) :
    get_body_system_for_condition s =
      (match dictGet CONDITION_TO_BODY_SYSTEM s with
       | some v => v
       | none =>
         match (if 3 ≤ s.length then
                  dictGet CONDITION_TO_BODY_SYSTEM (pyTake 3 s)
                else none) with
         | some v => v
         | none => conditionSentinel) := by
  unfold get_body_system_for_condition
  cases hx : dictGet CONDITION_TO_BODY_SYSTEM s with
  | some v => rfl
  | none =>
    by_cases hlen : 3 ≤ s.length
    · simp only [hlen, if_pos]
    · simp only [hlen, if_neg, if_false, ite_false]
      rw [hx]

/-! ### Claim C6: the inline ingestion lookup agrees with the resolver -/

/-- C6: whenever the ingestion pipeline's inline lookup (3-character
category first, exact code second) finds a classification — i.e. whenever
an AFFECTS edge would be attached — the Code Resolver
`get_body_system_for_condition` (exact first, category second) returns
the same classification. -/
theorem inline_lookup_agrees_with_resolver (s : String) (e : BodySystemEntry)
    (h : conditionBodySystemLookup s = some e) :
    get_body_system_for_condition s = e := by
  unfold conditionBodySystemLookup at h
  unfold get_body_system_for_condition
  cases h3 : dictGet CONDITION_TO_BODY_SYSTEM (pyTake 3 s) with
  | some v =>
    rw [h3] at h
    have hve : v = e := Option.some.inj h
    subst hve
    cases hx : dictGet CONDITION_TO_BODY_SYSTEM s with
    | some w =>
      have hlen := condition_key_length hx
      rw [pyTake_of_length_le (by omega), hx] at h3
      have hwv : w = v := Option.some.inj h3
      subst hwv
      rfl
    | none =>
      by_cases hlen : 3 ≤ s.length
      · show (match dictGet CONDITION_TO_BODY_SYSTEM
            (if 3 ≤ s.length then pyTake 3 s else s) with
          | some v => v
          | none => conditionSentinel) = v
        rw [if_pos hlen, h3]
      · rw [pyTake_of_length_le (by omega), hx] at h3
        exact absurd h3 (by simp)
  | none =>
    rw [h3] at h
    have h' : dictGet CONDITION_TO_BODY_SYSTEM s = some e := h
    have hlen := condition_key_length h'
    rw [pyTake_of_length_le (by omega), h'] at h3
    exact absurd h3 (by simp)

/-- Witness for C6 at the concrete code `I10`. -/
theorem inline_lookup_agrees_with_resolver_witness :
    get_body_system_for_condition "I10" =
      ⟨"Heart", "Blood Vessels", "Pumps blood throughout your body"⟩ :=
  inline_lookup_agrees_with_resolver "I10" _ (by decide)

/-! ### Claim C2: counting of skipped condition resources -/

/-- C2 (code bug): for the bundle with one well-formed Condition (`E11`)
and one Condition with an empty coding list, `load_bundle` writes only the
well-formed condition to the graph (one Condition node, one HAS_CONDITION
edge) but returns a conditions count of 2, because the counter in the
dispatch loop is incremented even when `_create_condition` skips the
resource — contradicting the documented "counts of loaded resources" and
the specified count of 1. -/
theorem skipped_condition_still_counted :
    (loadBundle emptyStore mixedConditionBundle).1.conditions = 2 ∧
    (loadBundle emptyStore mixedConditionBundle).2.conditionIds = ["E11"] ∧
    (loadBundle emptyStore mixedConditionBundle).2.hasCondition =
      [("patient-001", "E11", some "2015-06-20")] := by
  refine ⟨by decide, by decide, by decide⟩

/-! ### Claim C3: HAS_CONDITION edges under changed onset dates -/

/-- C3 (code bug): re-ingesting the same (patient, condition) pair with a
different onset date does not update the existing HAS_CONDITION edge but
creates a second one, because the Cypher `MERGE` pattern includes
`onsetDate`, so an edge with a different onset does not match.  After
ingesting `I10` for `patient-001` with onset 2020-01-01 and again with
onset 2021-01-01, the graph holds two HAS_CONDITION edges between that
patient and that condition. -/
theorem changed_onset_duplicates_edge :
    (loadBundle
      (loadBundle emptyStore [.pat patMaria, .cond condI10v2020]).2
      [.cond condI10v2021]).2.hasCondition =
      [("patient-001", "I10", some "2020-01-01"),
       ("patient-001", "I10", some "2021-01-01")] ∧
    (loadBundle
      (loadBundle emptyStore [.pat patMaria, .cond condI10v2020]).2
      [.cond condI10v2021]).2.takesMedication = [] := by
  refine ⟨by decide, by decide⟩

/-! ### Claim C1 counterexample: order-dependent non-idempotence -/

/-- C1 counterexample: for the bundle whose Condition entry precedes its
Patient entry, calling `load_bundle` twice on identical content does not
leave the graph in the state produced by calling it once — the first call
skips the condition (its patient does not exist yet), the second call
writes it. -/
theorem load_bundle_twice_not_idempotent :
    (loadBundle ((loadBundle emptyStore outOfOrderBundle).2)
        outOfOrderBundle).2 ≠
      (loadBundle emptyStore outOfOrderBundle).2 := by
  intro h
  exact absurd (congrArg GraphState.conditionIds h) (by decide)

/-! ### Claim C4 counterexample: a TARGETS edge to the Body system -/

/-- C4 counterexample: ingesting the medication `M01AE01` (ibuprofen),
whose taxonomy entry legitimately has target `Body`, creates a TARGETS
edge to the BodySystem node named `Body` — the same node name as the
sentinel classification — so ingestion can create an edge to the `Body`
system. -/
theorem ingestion_creates_targets_edge_to_body :
    ("M01AE01", "Body", "Reduces inflammation") ∈
      (loadBundle emptyStore ibuprofenBundle).2.targets ∧
    "Body" ∈ (loadBundle emptyStore ibuprofenBundle).2.bsNames := by
  refine ⟨by decide, by decide⟩

/-! ### Claim C7 counterexample: NotFound for an existing patient -/

/-- C7 counterexample: after ingesting a patient whose single name entry
has no given or family parts (stored display name `""`), the Patient node
exists, yet `get_patient_health_summary` raises the NotFound-style error
for that identifier — so the error is not equivalent to the patient not
existing. -/
theorem summary_not_found_despite_existing_patient :
    "patient-002" ∈ (loadBundle emptyStore [.pat patBlankName]).2.patientIds ∧
    getPatientHealthSummary (loadBundle emptyStore [.pat patBlankName]).2
        "patient-002" =
      Except.error "Patient patient-002 not found" := by
  refine ⟨by decide, by decide⟩

/-! ### Generic lemmas about the state primitives -/

theorem insAbs_of_mem {α : Type} [DecidableEq α] {l : List α} {a : α}
    (h : a ∈ l) : insAbs l a = l := by
  simp [insAbs, h]

theorem mem_insAbs_self {α : Type} [DecidableEq α] (l : List α) (a : α) :
    a ∈ insAbs l a := by
  unfold insAbs
  by_cases h : a ∈ l
  · rw [if_pos h]; exact h
  · rw [if_neg h]; simp

theorem mem_insAbs_of_mem {α : Type} [DecidableEq α] {l : List α} {b : α}
    (a : α) (h : b ∈ l) : b ∈ insAbs l a := by
  unfold insAbs
  by_cases ha : a ∈ l
  · rw [if_pos ha]; exact h
  · rw [if_neg ha]; exact List.mem_append_left _ h

theorem mem_of_mem_insAbs {α : Type} [DecidableEq α] {l : List α} {a b : α}
    (h : b ∈ insAbs l a) : b ∈ l ∨ b = a := by
  unfold insAbs at h
  by_cases ha : a ∈ l
  · rw [if_pos ha] at h; exact Or.inl h
  · rw [if_neg ha] at h
    rcases List.mem_append.mp h with h1 | h1
    · exact Or.inl h1
    · simp at h1; exact Or.inr h1

theorem foldl_pair_split {α β γ : Type} (f : α → γ → α) (g : β → γ → β)
    (l : List γ) :
    ∀ (a : α) (b : β),
      l.foldl (fun p c => (f p.1 c, g p.2 c)) (a, b) =
        (l.foldl f a, l.foldl g b) := by
  induction l with
  | nil => intro a b; rfl
  | cons c t ih => intro a b; simp only [List.foldl]; exact ih (f a c) (g b c)

/-- `load_bundle` splits into state-independent counters and a state fold. -/
theorem loadBundle_split (s : GraphState) (entries : List FResource) :
    loadBundle s entries = (bundleStats entries, loadState s entries) := by
  unfold loadBundle bundleStats loadState
  exact foldl_pair_split bumpStats stepResource entries ⟨0, 0, 0, 0⟩ s

theorem loadState_nil (s : GraphState) : loadState s [] = s := rfl

theorem loadState_cons (s : GraphState) (r : FResource)
    (rest : List FResource) :
    loadState s (r :: rest) = loadState (stepResource s r) rest := rfl

/-! ### Claim C8: aggregation rows always carry their primary field -/

/-- C8: every row in the lists of a successfully returned health summary
has a non-empty primary identifying field (condition code, medication
code, body-system name, related-condition display), because rows whose
primary field is null or empty are filtered out; in particular a patient
with no HAS_CONDITION edges gets `conditions = []`, never a list holding
an all-null row. -/
theorem summary_rows_have_primary_fields (s : GraphState) (pid : String)
    (summ : PatientHealthSummary)
    (h : getPatientHealthSummary s pid = Except.ok summ) :
    (∀ r ∈ summ.conditions, ∃ c, r.code = some c ∧ c ≠ "") ∧
    (∀ r ∈ summ.medications, ∃ c, r.code = some c ∧ c ≠ "") ∧
    (∀ r ∈ summ.body_systems_affected, ∃ n, r.system = some n ∧ n ≠ "") ∧
    (∀ r ∈ summ.condition_relationships, ∃ n, r.related_to = some n ∧ n ≠ "") ∧
    (s.hasCondition.filter (fun e => e.1 = pid) = [] → summ.conditions = []) := by
  unfold getPatientHealthSummary at h
  by_cases hp : pid ∈ s.patientIds
  · rw [if_pos hp] at h
    by_cases hn : (s.patientAttrs pid).name = ""
    · rw [if_pos hn] at h
      exact absurd h (by simp)
    · rw [if_neg hn] at h
      have hs := Except.ok.inj h
      subst hs
      refine ⟨?_, ?_, ?_, ?_, ?_⟩
      · intro r hr
        have ht := (List.mem_filter.mp hr).2
        cases hc : r.code with
        | none => rw [hc] at ht; simp [truthyS] at ht
        | some c =>
          refine ⟨c, rfl, ?_⟩
          rw [hc] at ht
          simpa [truthyS] using ht
      · intro r hr
        have ht := (List.mem_filter.mp hr).2
        cases hc : r.code with
        | none => rw [hc] at ht; simp [truthyS] at ht
        | some c =>
          refine ⟨c, rfl, ?_⟩
          rw [hc] at ht
          simpa [truthyS] using ht
      · intro r hr
        have ht := (List.mem_filter.mp hr).2
        cases hc : r.system with
        | none => rw [hc] at ht; simp [truthyS] at ht
        | some c =>
          refine ⟨c, rfl, ?_⟩
          rw [hc] at ht
          simpa [truthyS] using ht
      · intro r hr
        have ht := (List.mem_filter.mp hr).2
        cases hc : r.related_to with
        | none => rw [hc] at ht; simp [truthyS] at ht
        | some c =>
          refine ⟨c, rfl, ?_⟩
          rw [hc] at ht
          simpa [truthyS] using ht
      · intro hemp
        show (collectDistinct (rawCondRows s pid)).filter
            (fun r => truthyS r.code) = []
        unfold rawCondRows
        simp [hemp, collectDistinct, dedupAux, truthyS]
  · rw [if_neg hp] at h
    exact absurd h (by simp)

/-- Witness for C8: a patient with no conditions yields an empty
conditions list. -/
theorem summary_rows_have_primary_fields_witness :
    (⟨"patient-001", "Maria Garcia", [], [], [], []⟩ :
      PatientHealthSummary).conditions = [] :=
  (summary_rows_have_primary_fields
      (loadBundle emptyStore [.pat patMaria]).2 "patient-001"
      ⟨"patient-001", "Maria Garcia", [], [], [], []⟩
      (by decide)).2.2.2.2 (by decide)

/-! ### Claim C9: load_directory isolates failures but does not report them -/

theorem dirStateFold_nil (s : GraphState) : dirStateFold s [] = s := rfl

theorem dirStateFold_cons_err (s : GraphState) (e : String)
    (t : List (Except String (List FResource))) :
    dirStateFold s (.error e :: t) = dirStateFold s t := rfl

theorem dirStateFold_cons_ok (s : GraphState) (b : List FResource)
    (t : List (Except String (List FResource))) :
    dirStateFold s (.ok b :: t) = dirStateFold (loadBundle s b).2 t := rfl

theorem loadDirectory_aux (files : List (Except String (List FResource))) :
    ∀ (a : DirStats) (s : GraphState),
      files.foldl
        (fun acc f =>
          match f with
          | .error _ => acc
          | .ok b =>
            let r := loadBundle acc.2 b
            (⟨acc.1.patients + r.1.patients, acc.1.conditions + r.1.conditions,
              acc.1.medications + r.1.medications, acc.1.files_processed + 1⟩,
             r.2))
        (a, s) =
      (⟨a.patients + (files.map (fun f => (fileStats f).patients)).sum,
        a.conditions + (files.map (fun f => (fileStats f).conditions)).sum,
        a.medications + (files.map (fun f => (fileStats f).medications)).sum,
        a.files_processed + files.countP okFile⟩,
       dirStateFold s files) := by
  induction files with
  | nil => intro a s; simp [dirStateFold]
  | cons f t ih =>
    intro a s
    cases f with
    | error e =>
      simp only [List.foldl]
      rw [ih]
      simp [fileStats, okFile, List.countP_cons, dirStateFold_cons_err]
    | ok b =>
      simp only [List.foldl]
      rw [ih]
      simp only [fileStats, okFile, List.map_cons, List.sum_cons,
        List.countP_cons, dirStateFold_cons_ok, loadBundle_split]
      refine Prod.ext ?_ rfl
      simp [Nat.add_assoc, Nat.add_comm, Nat.add_left_comm]

/-- C9 (amended): `load_directory` processes every file independently —
the result equals per-file counter sums over the successfully parsed
files plus a fold of the graph loads over exactly those files, so one
failing file never aborts the others — and `files_processed` counts only
the successful files: the returned record carries no failure count and no
error list (failures are only printed). -/
theorem load_directory_isolates_failures (s : GraphState)
    (files : List (Except String (List FResource))) :
    loadDirectory s files =
      (⟨(files.map (fun f => (fileStats f).patients)).sum,
        (files.map (fun f => (fileStats f).conditions)).sum,
        (files.map (fun f => (fileStats f).medications)).sum,
        files.countP okFile⟩,
       dirStateFold s files) := by
  unfold loadDirectory
  have h := loadDirectory_aux files ⟨0, 0, 0, 0⟩ s
  simpa using h

/-- C9 counterexample: prepending a failing file to a directory changes
nothing in the returned aggregate — the result of loading a failing file
plus a good bundle is identical to the result of loading the good bundle
alone — so the aggregate result reports no per-file failure count and no
error list, contrary to the claim. -/
theorem load_directory_result_reports_no_failures :
    (loadDirectory emptyStore
        [Except.error "invalid json", Except.ok inOrderBundle]).1 =
      (loadDirectory emptyStore [Except.ok inOrderBundle]).1 ∧
    (loadDirectory emptyStore
        [Except.error "invalid json", Except.ok inOrderBundle]).1.files_processed
      = 1 := by
  refine ⟨by decide, by decide⟩

/-! ### Guard-unfolding helpers for the create functions -/

theorem createCondition_guard_some {c : FCondition} {coding : FCoding}
    {pid : String}
    (h : guardedRef c.coding c.subject = some (coding, pid)) (s : GraphState) :
    createCondition s c =
      (match conditionBodySystemLookup coding.code with
       | none => condMergeQuery s pid coding c.onset
       | some bs =>
         linkConditionToBodySystem (condMergeQuery s pid coding c.onset)
           coding.code bs) := by
  unfold createCondition
  cases hcod : c.coding with
  | nil => rw [hcod] at h; simp [guardedRef] at h
  | cons a t =>
    rw [hcod] at h
    unfold guardedRef at h
    cases hsub : subjectRef c.subject with
    | none => rw [hsub] at h; simp at h
    | some pid' =>
      rw [hsub] at h
      simp at h
      obtain ⟨ha, hpid⟩ := h
      subst ha
      subst hpid
      rfl

theorem createCondition_guard_none {c : FCondition}
    (h : guardedRef c.coding c.subject = none) (s : GraphState) :
    createCondition s c = s := by
  unfold createCondition
  cases hcod : c.coding with
  | nil => rfl
  | cons a t =>
    rw [hcod] at h
    unfold guardedRef at h
    cases hsub : subjectRef c.subject with
    | none => rfl
    | some pid' => rw [hsub] at h; simp at h

theorem createMedication_guard_some {m : FMedicationRequest} {coding : FCoding}
    {pid : String}
    (h : guardedRef m.coding m.subject = some (coding, pid)) (s : GraphState) :
    createMedication s m =
      (match dictGet MEDICATION_TO_TARGET coding.code with
       | none => medMergeQuery s pid coding
       | some t =>
         linkMedicationToTarget (medMergeQuery s pid coding) coding.code t) := by
  unfold createMedication
  cases hcod : m.coding with
  | nil => rw [hcod] at h; simp [guardedRef] at h
  | cons a t =>
    rw [hcod] at h
    unfold guardedRef at h
    cases hsub : subjectRef m.subject with
    | none => rw [hsub] at h; simp at h
    | some pid' =>
      rw [hsub] at h
      simp at h
      obtain ⟨ha, hpid⟩ := h
      subst ha
      subst hpid
      rfl

theorem createMedication_guard_none {m : FMedicationRequest}
    (h : guardedRef m.coding m.subject = none) (s : GraphState) :
    createMedication s m = s := by
  unfold createMedication
  cases hcod : m.coding with
  | nil => rfl
  | cons a t =>
    rw [hcod] at h
    unfold guardedRef at h
    cases hsub : subjectRef m.subject with
    | none => rfl
    | some pid' => rw [hsub] at h; simp at h

/-! ### Claim C7: when the summary raises NotFound -/

/-- C7 (amended): `get_patient_health_summary` raises the NotFound error
carrying the requested identifier iff the Patient node does not exist OR
the stored patient name is empty (Python-falsy), that error message is
the only error the engine produces, and every non-error result is a
complete summary for the requested patient. -/
theorem summary_not_found_semantics (s : GraphState) (pid : String) :
    (getPatientHealthSummary s pid =
        Except.error ("Patient " ++ pid ++ " not found") ↔
      (pid ∉ s.patientIds ∨ (s.patientAttrs pid).name = "")) ∧
    (∀ e, getPatientHealthSummary s pid = Except.error e →
      e = "Patient " ++ pid ++ " not found") ∧
    (∀ summ, getPatientHealthSummary s pid = Except.ok summ →
      summ.patient_id = pid ∧
      summ.patient_name = (s.patientAttrs pid).name) := by
  unfold getPatientHealthSummary
  by_cases hp : pid ∈ s.patientIds
  · rw [if_pos hp]
    by_cases hn : (s.patientAttrs pid).name = ""
    · rw [if_pos hn]
      refine ⟨⟨fun _ => Or.inr hn, fun _ => rfl⟩, ?_, ?_⟩
      · intro e he; exact (Except.error.inj he).symm
      · intro summ hsm; exact absurd hsm (by simp)
    · rw [if_neg hn]
      refine ⟨⟨fun hc => absurd hc (by simp), ?_⟩, ?_, ?_⟩
      · intro hc
        rcases hc with hc | hc
        · exact absurd hp hc
        · exact absurd hc hn
      · intro e he; exact absurd he (by simp)
      · intro summ hsm
        have hs := Except.ok.inj hsm
        subst hs
        exact ⟨rfl, rfl⟩
  · rw [if_neg hp]
    refine ⟨⟨fun _ => Or.inl hp, fun _ => rfl⟩, ?_, ?_⟩
    · intro e he; exact (Except.error.inj he).symm
    · intro summ hsm; exact absurd hsm (by simp)

/-- Witness for C7 (amended) at the empty store. -/
theorem summary_not_found_semantics_witness :
    getPatientHealthSummary emptyStore "patient-001" =
      Except.error ("Patient " ++ "patient-001" ++ " not found") :=
  (summary_not_found_semantics emptyStore "patient-001").1.mpr
    (Or.inl (by simp [emptyStore]))

/-! ### Claim C10: processing order and counting of unmatched references -/

/-- C10: when a Condition or MedicationRequest's referenced patient does
not exist at processing time (in any link-saturated graph state, which
includes every state the loader itself produces), the create helper
writes nothing at all — the state is unchanged because the write query
MATCHes the Patient first — yet the dispatched resource still increments
the returned conditions/medications counter; consequently the graph a
bundle produces depends on whether the Patient entry precedes its
dependent resources, as the out-of-order and in-order versions of the
same content produce different graphs. -/
theorem missing_patient_resource_writes_nothing_but_counts :
    (∀ (s : GraphState) (c : FCondition) (coding : FCoding) (pid : String),
       LinksSaturated s →
       guardedRef c.coding c.subject = some (coding, pid) →
       pid ∉ s.patientIds →
       createCondition s c = s) ∧
    (∀ (s : GraphState) (m : FMedicationRequest) (coding : FCoding)
       (pid : String),
       LinksSaturated s →
       guardedRef m.coding m.subject = some (coding, pid) →
       pid ∉ s.patientIds →
       createMedication s m = s) ∧
    (∀ (s : GraphState) (c : FCondition),
       (loadBundle s [.cond c]).1.conditions = 1) ∧
    (∀ (s : GraphState) (m : FMedicationRequest),
       (loadBundle s [.med m]).1.medications = 1) ∧
    loadState emptyStore outOfOrderBundle ≠ loadState emptyStore inOrderBundle := by
  refine ⟨?_, ?_, ?_, ?_, ?_⟩
  · intro s c coding pid hsat hg hnp
    rw [createCondition_guard_some hg]
    have hm : condMergeQuery s pid coding c.onset = s := by
      unfold condMergeQuery; rw [if_neg hnp]
    rw [hm]
    split
    · rfl
    · rename_i bs hl
      unfold linkConditionToBodySystem
      by_cases hc : coding.code ∈ s.conditionIds
      · rw [if_pos hc]
        obtain ⟨hbs, haf⟩ := hsat.1 coding.code bs hc hl
        rw [insAbs_of_mem hbs, insAbs_of_mem haf, if_pos hbs]
      · rw [if_neg hc]
  · intro s m coding pid hsat hg hnp
    rw [createMedication_guard_some hg]
    have hm : medMergeQuery s pid coding = s := by
      unfold medMergeQuery; rw [if_neg hnp]
    rw [hm]
    split
    · rfl
    · rename_i t hl
      unfold linkMedicationToTarget
      by_cases hc : coding.code ∈ s.medicationIds
      · rw [if_pos hc]
        obtain ⟨hbs, htg⟩ := hsat.2 coding.code t hc hl
        rw [insAbs_of_mem hbs, insAbs_of_mem htg]
      · rw [if_neg hc]
  · intro s c; rfl
  · intro s m; rfl
  · intro h
    exact absurd (congrArg GraphState.conditionIds h) (by decide)

/-- Witness for C10: a condition whose patient is absent from the empty
store leaves the store unchanged. -/
theorem missing_patient_resource_writes_nothing_but_counts_witness :
    createCondition emptyStore condE11 = emptyStore :=
  missing_patient_resource_writes_nothing_but_counts.1 emptyStore condE11
    codingE11 "patient-001"
    ⟨fun code a hmem _ => absurd hmem (by simp [emptyStore]),
     fun code t hmem _ => absurd hmem (by simp [emptyStore])⟩
    (by decide)
    (by simp [emptyStore])

/-! ### Claim C4: AFFECTS/TARGETS edges mirror the taxonomy -/

theorem conditionBodySystemLookup_ne_body {code : String} {a : BodySystemEntry}
    (h : conditionBodySystemLookup code = some a) : a.system ≠ "Body" := by
  unfold conditionBodySystemLookup at h
  cases h3 : dictGet CONDITION_TO_BODY_SYSTEM (pyTake 3 code) with
  | some v =>
    rw [h3] at h
    have hv : v = a := Option.some.inj h
    subst hv
    exact condition_lookup_system_ne_body h3
  | none =>
    rw [h3] at h
    exact condition_lookup_system_ne_body h

theorem condMergeQuery_affects (s : GraphState) (pid : String)
    (coding : FCoding) (onset : Option String) :
    (condMergeQuery s pid coding onset).affects = s.affects := by
  unfold condMergeQuery
  by_cases hp : pid ∈ s.patientIds
  · rw [if_pos hp]
  · rw [if_neg hp]

theorem condMergeQuery_targets (s : GraphState) (pid : String)
    (coding : FCoding) (onset : Option String) :
    (condMergeQuery s pid coding onset).targets = s.targets := by
  unfold condMergeQuery
  by_cases hp : pid ∈ s.patientIds
  · rw [if_pos hp]
  · rw [if_neg hp]

theorem medMergeQuery_affects (s : GraphState) (pid : String)
    (coding : FCoding) :
    (medMergeQuery s pid coding).affects = s.affects := by
  unfold medMergeQuery
  by_cases hp : pid ∈ s.patientIds
  · rw [if_pos hp]
  · rw [if_neg hp]

theorem medMergeQuery_targets (s : GraphState) (pid : String)
    (coding : FCoding) :
    (medMergeQuery s pid coding).targets = s.targets := by
  unfold medMergeQuery
  by_cases hp : pid ∈ s.patientIds
  · rw [if_pos hp]
  · rw [if_neg hp]

theorem stepResource_justified {s : GraphState} (r : FResource)
    (h : LinkEdgesJustified s) : LinkEdgesJustified (stepResource s r) := by
  cases r with
  | pat p => exact h
  | other => exact h
  | cond c =>
    show LinkEdgesJustified (createCondition s c)
    cases hg : guardedRef c.coding c.subject with
    | none => rw [createCondition_guard_none hg]; exact h
    | some cp =>
      obtain ⟨coding, pid⟩ := cp
      rw [createCondition_guard_some hg]
      have h1 : LinkEdgesJustified (condMergeQuery s pid coding c.onset) := by
        constructor
        · intro e he
          rw [condMergeQuery_affects] at he
          exact h.1 e he
        · intro e he
          rw [condMergeQuery_targets] at he
          exact h.2 e he
      split
      · exact h1
      · rename_i bs hl
        unfold linkConditionToBodySystem
        by_cases hc :
            coding.code ∈ (condMergeQuery s pid coding c.onset).conditionIds
        · rw [if_pos hc]
          constructor
          · intro e he
            rcases mem_of_mem_insAbs he with h2 | h2
            · exact h1.1 e h2
            · subst h2; exact ⟨bs, hl, rfl, rfl⟩
          · intro e he
            exact h1.2 e he
        · rw [if_neg hc]; exact h1
  | med m =>
    show LinkEdgesJustified (createMedication s m)
    cases hg : guardedRef m.coding m.subject with
    | none => rw [createMedication_guard_none hg]; exact h
    | some cp =>
      obtain ⟨coding, pid⟩ := cp
      rw [createMedication_guard_some hg]
      have h1 : LinkEdgesJustified (medMergeQuery s pid coding) := by
        constructor
        · intro e he
          rw [medMergeQuery_affects] at he
          exact h.1 e he
        · intro e he
          rw [medMergeQuery_targets] at he
          exact h.2 e he
      split
      · exact h1
      · rename_i t hl
        unfold linkMedicationToTarget
        by_cases hc : coding.code ∈ (medMergeQuery s pid coding).medicationIds
        · rw [if_pos hc]
          constructor
          · intro e he
            exact h1.1 e he
          · intro e he
            rcases mem_of_mem_insAbs he with h2 | h2
            · exact h1.2 e h2
            · subst h2; exact ⟨t, hl, rfl, rfl⟩
        · rw [if_neg hc]; exact h1

theorem loadState_justified (entries : List FResource) :
    ∀ s : GraphState, LinkEdgesJustified s →
      LinkEdgesJustified (loadState s entries) := by
  induction entries with
  | nil => intro s h; exact h
  | cons r rest ih =>
    intro s h
    rw [loadState_cons]
    exact ih _ (stepResource_justified r h)

/-- C4 (amended): after any ingestion from a state whose AFFECTS/TARGETS
edges are justified by the taxonomy, every AFFECTS (TARGETS) edge still
carries exactly the classification the taxonomy assigns its code — so a
condition code has at most one distinct AFFECTS target, with the entry's
subsystem as metadata, and never one to the sentinel `Body` system; a
code with no taxonomy match gets no edge at all.  For each processed
condition (medication) whose patient exists and whose code resolves, the
matching edge is present afterwards; when the code does not resolve, the
edge set is untouched.  (The TARGETS analogue of the `Body` exclusion is
false: the medication table itself maps `M01AE01` to target `Body`.) -/
theorem affects_targets_edges_match_taxonomy (s : GraphState)
    (entries : List FResource) (hj : LinkEdgesJustified s) :
    LinkEdgesJustified (loadState s entries) ∧
    (∀ e ∈ (loadState s entries).affects, e.2.1 ≠ "Body") ∧
    (∀ (t : GraphState) (c : FCondition) (coding : FCoding) (pid : String)
       (bs : BodySystemEntry),
       guardedRef c.coding c.subject = some (coding, pid) →
       pid ∈ t.patientIds →
       conditionBodySystemLookup coding.code = some bs →
       (coding.code, bs.system, bs.subsystem) ∈ (createCondition t c).affects) ∧
    (∀ (t : GraphState) (c : FCondition) (coding : FCoding) (pid : String),
       guardedRef c.coding c.subject = some (coding, pid) →
       conditionBodySystemLookup coding.code = none →
       (createCondition t c).affects = t.affects) ∧
    (∀ (t : GraphState) (m : FMedicationRequest) (coding : FCoding)
       (pid : String) (te : TargetEntry),
       guardedRef m.coding m.subject = some (coding, pid) →
       pid ∈ t.patientIds →
       dictGet MEDICATION_TO_TARGET coding.code = some te →
       (coding.code, te.target, te.action) ∈ (createMedication t m).targets) ∧
    (∀ (t : GraphState) (m : FMedicationRequest) (coding : FCoding)
       (pid : String),
       guardedRef m.coding m.subject = some (coding, pid) →
       dictGet MEDICATION_TO_TARGET coding.code = none →
       (createMedication t m).targets = t.targets) := by
  have hpost := loadState_justified entries s hj
  refine ⟨hpost, ?_, ?_, ?_, ?_, ?_⟩
  · intro e he
    obtain ⟨a, hl, hsys, _⟩ := hpost.1 e he
    rw [hsys]
    exact conditionBodySystemLookup_ne_body hl
  · intro t c coding pid bs hg hp hl
    rw [createCondition_guard_some hg, hl]
    have hcin : coding.code ∈ (condMergeQuery t pid coding c.onset).conditionIds := by
      unfold condMergeQuery
      rw [if_pos hp]
      exact mem_insAbs_self _ _
    show (coding.code, bs.system, bs.subsystem) ∈
      (linkConditionToBodySystem (condMergeQuery t pid coding c.onset)
        coding.code bs).affects
    unfold linkConditionToBodySystem
    rw [if_pos hcin]
    exact mem_insAbs_self _ _
  · intro t c coding pid hg hl
    rw [createCondition_guard_some hg, hl]
    show (condMergeQuery t pid coding c.onset).affects = t.affects
    exact condMergeQuery_affects t pid coding c.onset
  · intro t m coding pid te hg hp hl
    rw [createMedication_guard_some hg, hl]
    have hcin : coding.code ∈ (medMergeQuery t pid coding).medicationIds := by
      unfold medMergeQuery
      rw [if_pos hp]
      exact mem_insAbs_self _ _
    show (coding.code, te.target, te.action) ∈
      (linkMedicationToTarget (medMergeQuery t pid coding)
        coding.code te).targets
    unfold linkMedicationToTarget
    rw [if_pos hcin]
    exact mem_insAbs_self _ _
  · intro t m coding pid hg hl
    rw [createMedication_guard_some hg, hl]
    show (medMergeQuery t pid coding).targets = t.targets
    exact medMergeQuery_targets t pid coding

/-- Witness for C4 (amended): ingesting `E11` for an existing patient
yields its Pancreas AFFECTS edge. -/
theorem affects_targets_edges_match_taxonomy_witness :
    ("E11", "Pancreas", "Insulin Production") ∈
      (createCondition (loadBundle emptyStore [.pat patMaria]).2
        condE11).affects :=
  (affects_targets_edges_match_taxonomy emptyStore []
      ⟨fun e he => absurd he (by simp [emptyStore]),
       fun e he => absurd he (by simp [emptyStore])⟩).2.2.1
    (loadBundle emptyStore [.pat patMaria]).2 condE11 codingE11 "patient-001"
    ⟨"Pancreas", "Insulin Production", "Produces insulin to control blood sugar"⟩
    (by decide) (by decide) (by decide)

/-! ### Replay lemmas for the primitive writes -/

theorem foldIns_mem_of_mem {α : Type} [DecidableEq α] {l : List α} {x : α}
    (ws : List α) (h : x ∈ l) : x ∈ foldIns l ws := by
  induction ws generalizing l with
  | nil => exact h
  | cons a rest ih => exact ih (mem_insAbs_of_mem a h)

theorem foldIns_mem_self {α : Type} [DecidableEq α] {ws : List α} {x : α}
    (l : List α) (h : x ∈ ws) : x ∈ foldIns l ws := by
  induction ws generalizing l with
  | nil => simp at h
  | cons a rest ih =>
    rcases List.mem_cons.mp h with h1 | h1
    · subst h1
      exact foldIns_mem_of_mem rest (mem_insAbs_self l x)
    · exact ih _ h1

theorem foldIns_absorb {α : Type} [DecidableEq α] {l : List α} {ws : List α}
    (h : ∀ x ∈ ws, x ∈ l) : foldIns l ws = l := by
  induction ws with
  | nil => rfl
  | cons a rest ih =>
    show foldIns (insAbs l a) rest = l
    rw [insAbs_of_mem (h a (List.mem_cons_self a rest))]
    exact ih fun x hx => h x (List.mem_cons_of_mem a hx)

theorem foldIns_replay {α : Type} [DecidableEq α] (l : List α)
    (ws : List α) : foldIns (foldIns l ws) ws = foldIns l ws :=
  foldIns_absorb fun _ hx => foldIns_mem_self l hx

theorem foldIns_append {α : Type} [DecidableEq α] (l : List α)
    (ws1 ws2 : List α) :
    foldIns l (ws1 ++ ws2) = foldIns (foldIns l ws1) ws2 :=
  List.foldl_append _ _ _ _

theorem applyUpd_eq {V : Type} (f : String → V) (ws : List (String × V)) :
    applyUpd f ws = fun x => (lastVal ws x).getD (f x) := by
  induction ws generalizing f with
  | nil => rfl
  | cons p rest ih =>
    obtain ⟨k, v⟩ := p
    show applyUpd (fun x => if x = k then v else f x) rest = _
    rw [ih]
    funext x
    cases hrest : lastVal rest x with
    | some u => simp [lastVal, hrest]
    | none =>
      by_cases hx : x = k
      · subst hx
        simp [lastVal, hrest]
      · simp [lastVal, hrest, hx]

theorem applyUpd_replay {V : Type} (f : String → V) (ws : List (String × V)) :
    applyUpd (applyUpd f ws) ws = applyUpd f ws := by
  simp only [applyUpd_eq]
  funext x
  cases h : lastVal ws x with
  | some u => simp [h]
  | none => simp [h]

theorem applyUpd_append {V : Type} (f : String → V)
    (ws1 ws2 : List (String × V)) :
    applyUpd f (ws1 ++ ws2) = applyUpd (applyUpd f ws1) ws2 :=
  List.foldl_append _ _ _ _

theorem touchBs_names_mem_of_mem {p : List String × (String → Option String)}
    {x : String} (w : String × Option String) (h : x ∈ p.1) :
    x ∈ (touchBs p w).1 := by
  unfold touchBs
  by_cases hw : w.1 ∈ p.1
  · rw [if_pos hw]; exact h
  · rw [if_neg hw]; exact List.mem_append_left _ h

theorem touchBs_names_self (p : List String × (String → Option String))
    (w : String × Option String) : w.1 ∈ (touchBs p w).1 := by
  unfold touchBs
  by_cases hw : w.1 ∈ p.1
  · rw [if_pos hw]; exact hw
  · rw [if_neg hw]; simp

theorem touchBs_of_mem {p : List String × (String → Option String)}
    {w : String × Option String} (h : w.1 ∈ p.1) : touchBs p w = p := by
  unfold touchBs
  rw [if_pos h]

theorem applyTouch_names_mem_of_mem
    {p : List String × (String → Option String)} {x : String}
    (ws : List (String × Option String)) (h : x ∈ p.1) :
    x ∈ (applyTouch p ws).1 := by
  induction ws generalizing p with
  | nil => exact h
  | cons w rest ih => exact ih (touchBs_names_mem_of_mem w h)

theorem applyTouch_names_mem_self {ws : List (String × Option String)}
    {w : String × Option String}
    (p : List String × (String → Option String)) (h : w ∈ ws) :
    w.1 ∈ (applyTouch p ws).1 := by
  induction ws generalizing p with
  | nil => simp at h
  | cons a rest ih =>
    rcases List.mem_cons.mp h with h1 | h1
    · subst h1
      exact applyTouch_names_mem_of_mem rest (touchBs_names_self p w)
    · exact ih _ h1

theorem applyTouch_absorb {p : List String × (String → Option String)}
    {ws : List (String × Option String)}
    (h : ∀ w ∈ ws, w.1 ∈ p.1) : applyTouch p ws = p := by
  induction ws with
  | nil => rfl
  | cons a rest ih =>
    show applyTouch (touchBs p a) rest = p
    rw [touchBs_of_mem (h a (List.mem_cons_self a rest))]
    exact ih fun w hw => h w (List.mem_cons_of_mem a hw)

theorem applyTouch_replay (p : List String × (String → Option String))
    (ws : List (String × Option String)) :
    applyTouch (applyTouch p ws) ws = applyTouch p ws :=
  applyTouch_absorb fun _ hw => applyTouch_names_mem_self p hw

theorem applyTouch_append (p : List String × (String → Option String))
    (ws1 ws2 : List (String × Option String)) :
    applyTouch p (ws1 ++ ws2) = applyTouch (applyTouch p ws1) ws2 :=
  List.foldl_append _ _ _ _

theorem applyWrites_nil (s : GraphState) : applyWrites s [] = s := rfl

theorem applyWrites_append (s : GraphState) (ws1 ws2 : List GraphWrite) :
    applyWrites s (ws1 ++ ws2) = applyWrites (applyWrites s ws1) ws2 := by
  apply GraphState.ext <;>
    simp [applyWrites, wPatIds, wPatAttrs, wCondIds, wCondAttrs, wMedIds,
      wMedAttrs, wBsTouches, wHcEdges, wTmEdges, wAfEdges, wTgEdges,
      List.filterMap_append, foldIns_append, applyUpd_append, applyTouch_append]

theorem applyWrites_replay (s : GraphState) (ws : List GraphWrite) :
    applyWrites (applyWrites s ws) ws = applyWrites s ws := by
  apply GraphState.ext
  · exact foldIns_replay _ _
  · exact applyUpd_replay _ _
  · exact foldIns_replay _ _
  · exact applyUpd_replay _ _
  · exact foldIns_replay _ _
  · exact applyUpd_replay _ _
  · exact congrArg Prod.fst (applyTouch_replay _ _)
  · exact congrArg Prod.snd (applyTouch_replay _ _)
  · exact foldIns_replay _ _
  · exact foldIns_replay _ _
  · exact foldIns_replay _ _
  · exact foldIns_replay _ _
  · rfl
  · rfl

/-! ### Each in-order entry is its primitive-write list -/

theorem resourceWrites_cond (c : FCondition) :
    resourceWrites (.cond c) =
      (match c.coding with
       | [] => []
       | coding :: _ =>
         match subjectRef c.subject with
         | none => []
         | some pid =>
           [.wCond coding.code
              ⟨pyOrS coding.display coding.code, coding.system⟩,
            .wHc (pid, coding.code, c.onset)] ++
           (match conditionBodySystemLookup coding.code with
            | none => []
            | some bs =>
              [.wBs bs.system (some bs.description),
               .wAf (coding.code, bs.system, bs.subsystem)])) := rfl

theorem resourceWrites_med (m : FMedicationRequest) :
    resourceWrites (.med m) =
      (match m.coding with
       | [] => []
       | coding :: _ =>
         match subjectRef m.subject with
         | none => []
         | some pid =>
           [.wMed coding.code
              ⟨pyOrS coding.display coding.code, coding.system⟩,
            .wTm (pid, coding.code)] ++
           (match dictGet MEDICATION_TO_TARGET coding.code with
            | none => []
            | some t =>
              [.wBs t.target none,
               .wTg (coding.code, t.target, t.action)])) := rfl

theorem resourceOk_cond (s : GraphState) (c : FCondition) :
    resourceOk s (.cond c) =
      (match guardedRef c.coding c.subject with
       | none => true
       | some (_, pid) => decide (pid ∈ s.patientIds)) := rfl

theorem resourceOk_med (s : GraphState) (m : FMedicationRequest) :
    resourceOk s (.med m) =
      (match guardedRef m.coding m.subject with
       | none => true
       | some (_, pid) => decide (pid ∈ s.patientIds)) := rfl

theorem resourceWrites_cond_none {c : FCondition}
    (h : guardedRef c.coding c.subject = none) :
    resourceWrites (.cond c) = [] := by
  rw [resourceWrites_cond]
  cases hcod : c.coding with
  | nil => rfl
  | cons a t =>
    rw [hcod] at h
    unfold guardedRef at h
    cases hsub : subjectRef c.subject with
    | none => rfl
    | some pid' => rw [hsub] at h; simp at h

theorem resourceWrites_cond_some {c : FCondition} {coding : FCoding}
    {pid : String} (h : guardedRef c.coding c.subject = some (coding, pid)) :
    resourceWrites (.cond c) =
      [.wCond coding.code ⟨pyOrS coding.display coding.code, coding.system⟩,
       .wHc (pid, coding.code, c.onset)] ++
      (match conditionBodySystemLookup coding.code with
       | none => []
       | some bs =>
         [.wBs bs.system (some bs.description),
          .wAf (coding.code, bs.system, bs.subsystem)]) := by
  rw [resourceWrites_cond]
  cases hcod : c.coding with
  | nil => rw [hcod] at h; simp [guardedRef] at h
  | cons a t =>
    rw [hcod] at h
    unfold guardedRef at h
    cases hsub : subjectRef c.subject with
    | none => rw [hsub] at h; simp at h
    | some pid' =>
      rw [hsub] at h
      simp at h
      obtain ⟨ha, hpid⟩ := h
      subst ha
      subst hpid
      rfl

theorem resourceWrites_med_none {m : FMedicationRequest}
    (h : guardedRef m.coding m.subject = none) :
    resourceWrites (.med m) = [] := by
  rw [resourceWrites_med]
  cases hcod : m.coding with
  | nil => rfl
  | cons a t =>
    rw [hcod] at h
    unfold guardedRef at h
    cases hsub : subjectRef m.subject with
    | none => rfl
    | some pid' => rw [hsub] at h; simp at h

theorem resourceWrites_med_some {m : FMedicationRequest} {coding : FCoding}
    {pid : String} (h : guardedRef m.coding m.subject = some (coding, pid)) :
    resourceWrites (.med m) =
      [.wMed coding.code ⟨pyOrS coding.display coding.code, coding.system⟩,
       .wTm (pid, coding.code)] ++
      (match dictGet MEDICATION_TO_TARGET coding.code with
       | none => []
       | some t =>
         [.wBs t.target none, .wTg (coding.code, t.target, t.action)]) := by
  rw [resourceWrites_med]
  cases hcod : m.coding with
  | nil => rw [hcod] at h; simp [guardedRef] at h
  | cons a t =>
    rw [hcod] at h
    unfold guardedRef at h
    cases hsub : subjectRef m.subject with
    | none => rw [hsub] at h; simp at h
    | some pid' =>
      rw [hsub] at h
      simp at h
      obtain ⟨ha, hpid⟩ := h
      subst ha
      subst hpid
      rfl

theorem condMergeQuery_writes {s : GraphState} {pid : String}
    (coding : FCoding) (onset : Option String) (hp : pid ∈ s.patientIds) :
    condMergeQuery s pid coding onset =
      applyWrites s
        [.wCond coding.code ⟨pyOrS coding.display coding.code, coding.system⟩,
         .wHc (pid, coding.code, onset)] := by
  unfold condMergeQuery
  rw [if_pos hp]
  rfl

theorem medMergeQuery_writes {s : GraphState} {pid : String}
    (coding : FCoding) (hp : pid ∈ s.patientIds) :
    medMergeQuery s pid coding =
      applyWrites s
        [.wMed coding.code ⟨pyOrS coding.display coding.code, coding.system⟩,
         .wTm (pid, coding.code)] := by
  unfold medMergeQuery
  rw [if_pos hp]
  rfl

theorem linkCondition_writes {t : GraphState} {code : String}
    (bs : BodySystemEntry) (hc : code ∈ t.conditionIds) :
    linkConditionToBodySystem t code bs =
      applyWrites t
        [.wBs bs.system (some bs.description),
         .wAf (code, bs.system, bs.subsystem)] := by
  unfold linkConditionToBodySystem
  rw [if_pos hc]
  apply GraphState.ext
  · rfl
  · rfl
  · rfl
  · rfl
  · rfl
  · rfl
  · by_cases hb : bs.system ∈ t.bsNames <;>
      simp [insAbs, applyWrites, wBsTouches, applyTouch, touchBs, hb]
  · by_cases hb : bs.system ∈ t.bsNames <;>
      simp [applyWrites, wBsTouches, applyTouch, touchBs, hb]
  · rfl
  · rfl
  · rfl
  · rfl
  · rfl
  · rfl

theorem linkMedication_writes {t : GraphState} {code : String}
    (te : TargetEntry) (hc : code ∈ t.medicationIds) :
    linkMedicationToTarget t code te =
      applyWrites t [.wBs te.target none, .wTg (code, te.target, te.action)] := by
  unfold linkMedicationToTarget
  rw [if_pos hc]
  apply GraphState.ext
  · rfl
  · rfl
  · rfl
  · rfl
  · rfl
  · rfl
  · by_cases hb : te.target ∈ t.bsNames <;>
      simp [insAbs, applyWrites, wBsTouches, applyTouch, touchBs, hb]
  · by_cases hb : te.target ∈ t.bsNames <;>
      simp [applyWrites, wBsTouches, applyTouch, touchBs, hb]
  · rfl
  · rfl
  · rfl
  · rfl
  · rfl
  · rfl

theorem stepResource_writes {s : GraphState} {r : FResource}
    (h : resourceOk s r = true) :
    stepResource s r = applyWrites s (resourceWrites r) := by
  cases r with
  | pat p => rfl
  | other => rfl
  | cond c =>
    show createCondition s c = _
    cases hg : guardedRef c.coding c.subject with
    | none =>
      rw [createCondition_guard_none hg, resourceWrites_cond_none hg]
      rfl
    | some cp =>
      obtain ⟨coding, pid⟩ := cp
      have hp : pid ∈ s.patientIds := by
        rw [resourceOk_cond, hg] at h
        have hd : decide (pid ∈ s.patientIds) = true := h
        exact of_decide_eq_true hd
      rw [createCondition_guard_some hg, resourceWrites_cond_some hg,
        applyWrites_append, ← condMergeQuery_writes coding c.onset hp]
      cases hl : conditionBodySystemLookup coding.code with
      | none => rfl
      | some bs =>
        show linkConditionToBodySystem (condMergeQuery s pid coding c.onset)
            coding.code bs =
          applyWrites (condMergeQuery s pid coding c.onset)
            [.wBs bs.system (some bs.description),
             .wAf (coding.code, bs.system, bs.subsystem)]
        refine linkCondition_writes bs ?_
        unfold condMergeQuery
        rw [if_pos hp]
        exact mem_insAbs_self _ _
  | med m =>
    show createMedication s m = _
    cases hg : guardedRef m.coding m.subject with
    | none =>
      rw [createMedication_guard_none hg, resourceWrites_med_none hg]
      rfl
    | some cp =>
      obtain ⟨coding, pid⟩ := cp
      have hp : pid ∈ s.patientIds := by
        rw [resourceOk_med, hg] at h
        have hd : decide (pid ∈ s.patientIds) = true := h
        exact of_decide_eq_true hd
      rw [createMedication_guard_some hg, resourceWrites_med_some hg,
        applyWrites_append, ← medMergeQuery_writes coding hp]
      cases hl : dictGet MEDICATION_TO_TARGET coding.code with
      | none => rfl
      | some te =>
        show linkMedicationToTarget (medMergeQuery s pid coding)
            coding.code te =
          applyWrites (medMergeQuery s pid coding)
            [.wBs te.target none, .wTg (coding.code, te.target, te.action)]
        refine linkMedication_writes te ?_
        unfold medMergeQuery
        rw [if_pos hp]
        exact mem_insAbs_self _ _

/-! ### Bundle-level replay: the idempotence argument -/

theorem bundleWrites_cons (r : FResource) (rest : List FResource) :
    bundleWrites (r :: rest) = resourceWrites r ++ bundleWrites rest := by
  simp [bundleWrites]

theorem loadState_writes (entries : List FResource) :
    ∀ s : GraphState, bundleOk s entries = true →
      loadState s entries = applyWrites s (bundleWrites entries) := by
  induction entries with
  | nil => intro s _; rfl
  | cons r rest ih =>
    intro s h
    simp only [bundleOk, Bool.and_eq_true] at h
    rw [loadState_cons, ih (stepResource s r) h.2, stepResource_writes h.1,
      bundleWrites_cons, applyWrites_append]

theorem condMergeQuery_patientIds (s : GraphState) (pid : String)
    (coding : FCoding) (onset : Option String) :
    (condMergeQuery s pid coding onset).patientIds = s.patientIds := by
  unfold condMergeQuery
  by_cases hp : pid ∈ s.patientIds
  · rw [if_pos hp]
  · rw [if_neg hp]

theorem medMergeQuery_patientIds (s : GraphState) (pid : String)
    (coding : FCoding) :
    (medMergeQuery s pid coding).patientIds = s.patientIds := by
  unfold medMergeQuery
  by_cases hp : pid ∈ s.patientIds
  · rw [if_pos hp]
  · rw [if_neg hp]

theorem linkCondition_patientIds (t : GraphState) (code : String)
    (bs : BodySystemEntry) :
    (linkConditionToBodySystem t code bs).patientIds = t.patientIds := by
  unfold linkConditionToBodySystem
  by_cases hc : code ∈ t.conditionIds
  · rw [if_pos hc]
  · rw [if_neg hc]

theorem linkMedication_patientIds (t : GraphState) (code : String)
    (te : TargetEntry) :
    (linkMedicationToTarget t code te).patientIds = t.patientIds := by
  unfold linkMedicationToTarget
  by_cases hc : code ∈ t.medicationIds
  · rw [if_pos hc]
  · rw [if_neg hc]

theorem createCondition_patientIds (s : GraphState) (c : FCondition) :
    (createCondition s c).patientIds = s.patientIds := by
  cases hg : guardedRef c.coding c.subject with
  | none => rw [createCondition_guard_none hg]
  | some cp =>
    obtain ⟨coding, pid⟩ := cp
    rw [createCondition_guard_some hg]
    split
    · exact condMergeQuery_patientIds s pid coding c.onset
    · rw [linkCondition_patientIds]
      exact condMergeQuery_patientIds s pid coding c.onset

theorem createMedication_patientIds (s : GraphState) (m : FMedicationRequest) :
    (createMedication s m).patientIds = s.patientIds := by
  cases hg : guardedRef m.coding m.subject with
  | none => rw [createMedication_guard_none hg]
  | some cp =>
    obtain ⟨coding, pid⟩ := cp
    rw [createMedication_guard_some hg]
    split
    · exact medMergeQuery_patientIds s pid coding
    · rw [linkMedication_patientIds]
      exact medMergeQuery_patientIds s pid coding

theorem stepResource_patientIds_extend {s : GraphState} (r : FResource) :
    ∀ x ∈ s.patientIds, x ∈ (stepResource s r).patientIds := by
  intro x hx
  cases r with
  | pat p => exact mem_insAbs_of_mem p.id hx
  | cond c => rw [show stepResource s (.cond c) = createCondition s c from rfl,
      createCondition_patientIds]; exact hx
  | med m => rw [show stepResource s (.med m) = createMedication s m from rfl,
      createMedication_patientIds]; exact hx
  | other => exact hx

theorem loadState_patientIds_extend (entries : List FResource) :
    ∀ (s : GraphState), ∀ x ∈ s.patientIds,
      x ∈ (loadState s entries).patientIds := by
  induction entries with
  | nil => intro s x hx; exact hx
  | cons r rest ih =>
    intro s x hx
    rw [loadState_cons]
    exact ih _ x (stepResource_patientIds_extend r x hx)

theorem stepResource_patientIds_mono {s t : GraphState} (r : FResource)
    (h : ∀ x ∈ s.patientIds, x ∈ t.patientIds) :
    ∀ x ∈ (stepResource s r).patientIds, x ∈ (stepResource t r).patientIds := by
  intro x hx
  cases r with
  | pat p =>
    rcases mem_of_mem_insAbs hx with h1 | h1
    · exact mem_insAbs_of_mem p.id (h x h1)
    · subst h1; exact mem_insAbs_self _ _
  | cond c =>
    rw [show stepResource s (.cond c) = createCondition s c from rfl,
      createCondition_patientIds] at hx
    rw [show stepResource t (.cond c) = createCondition t c from rfl,
      createCondition_patientIds]
    exact h x hx
  | med m =>
    rw [show stepResource s (.med m) = createMedication s m from rfl,
      createMedication_patientIds] at hx
    rw [show stepResource t (.med m) = createMedication t m from rfl,
      createMedication_patientIds]
    exact h x hx
  | other => exact h x hx

theorem resourceOk_mono {s t : GraphState} (r : FResource)
    (h : ∀ x ∈ s.patientIds, x ∈ t.patientIds)
    (hok : resourceOk s r = true) : resourceOk t r = true := by
  cases r with
  | pat p => rfl
  | other => rfl
  | cond c =>
    rw [resourceOk_cond] at hok ⊢
    cases hg : guardedRef c.coding c.subject with
    | none => rfl
    | some cp =>
      obtain ⟨coding, pid⟩ := cp
      rw [hg] at hok
      have hd : decide (pid ∈ s.patientIds) = true := hok
      exact decide_eq_true (h pid (of_decide_eq_true hd))
  | med m =>
    rw [resourceOk_med] at hok ⊢
    cases hg : guardedRef m.coding m.subject with
    | none => rfl
    | some cp =>
      obtain ⟨coding, pid⟩ := cp
      rw [hg] at hok
      have hd : decide (pid ∈ s.patientIds) = true := hok
      exact decide_eq_true (h pid (of_decide_eq_true hd))

theorem bundleOk_mono (entries : List FResource) :
    ∀ {s t : GraphState}, (∀ x ∈ s.patientIds, x ∈ t.patientIds) →
      bundleOk s entries = true → bundleOk t entries = true := by
  induction entries with
  | nil => intro s t _ _; rfl
  | cons r rest ih =>
    intro s t h hok
    simp only [bundleOk, Bool.and_eq_true] at hok
    show (resourceOk t r && bundleOk (stepResource t r) rest) = true
    rw [Bool.and_eq_true]
    exact ⟨resourceOk_mono r h hok.1,
      ih (stepResource_patientIds_mono r h) hok.2⟩

theorem bundleOk_second {s : GraphState} {entries : List FResource}
    (h : bundleOk s entries = true) :
    bundleOk (loadState s entries) entries = true :=
  bundleOk_mono entries (loadState_patientIds_extend entries s) h

/-! ### Claim C1: idempotence for in-order bundles -/

/-- C1 (amended): for any bundle in which every Condition and
MedicationRequest entry that passes its local guards references a patient
that exists in the graph when the entry is processed (it was already
stored, or its Patient entry appears earlier in the bundle — `bundleOk`),
calling `load_bundle` twice on identical content leaves the graph store
in exactly the state of calling it once: same nodes, same edges, same
attribute values, with no duplicate Patient/Condition/Medication/
BodySystem nodes and no duplicate HAS_CONDITION/TAKES_MEDICATION/
AFFECTS/TARGETS edges. -/
theorem load_bundle_idempotent_when_in_order (s : GraphState)
    (entries : List FResource) (h : bundleOk s entries = true) :
    (loadBundle ((loadBundle s entries).2) entries).2 =
      (loadBundle s entries).2 := by
  have e1 : (loadBundle s entries).2 = loadState s entries := by
    rw [loadBundle_split]
  rw [e1]
  have e2 : (loadBundle (loadState s entries) entries).2 =
      loadState (loadState s entries) entries := by
    rw [loadBundle_split]
  rw [e2]
  have hb := bundleOk_second h
  rw [loadState_writes entries s h] at hb
  rw [loadState_writes entries s h, loadState_writes entries _ hb]
  exact applyWrites_replay s _

/-- Witness for C1 (amended) on a concrete in-order bundle. -/
theorem load_bundle_idempotent_when_in_order_witness :
    (loadBundle ((loadBundle emptyStore inOrderBundle).2) inOrderBundle).2 =
      (loadBundle emptyStore inOrderBundle).2 :=
  load_bundle_idempotent_when_in_order emptyStore inOrderBundle (by decide)
